import Mathlib

/-! Verification of the pytest fixture module (tests/conftest.py) and the
address-column migration of the eao-project-reports repository, as a shallow
Lean embedding.  The central object is the test isolation harness: the
function-scoped `session` fixture that wraps each test in an outer
transaction plus a nested savepoint, restarting the savepoint whenever the
code under test commits, and rolling the outer transaction back at teardown.
Also embedded: the session-scoped `db` reset fixture, the `entity_stan`
message-bus fixture, and the `4ae18b9e8a76` migration (upgrade/downgrade of
the projects.address column). -/

namespace TestIsolation

/-- Observable actions performed against the engine, the connection and the
session by the fixture code in tests/conftest.py (lines 113-146). -/
inductive Action
  | connect
  | beginOuter
  | createSession
  | beginNested
  | expireAll
  | releaseSavepoint
  | rollbackSavepoint
  | commitOuter
  | rollbackOuter
  | execSelect1
  | removeSession
  | closeConn
  deriving DecidableEq

/-- The information about an ended session transaction that the
after_transaction_end event hands to its listener: whether the ended
transaction was a nested savepoint, and whether its immediate parent
transaction was itself nested (for the root transaction, whose parent is
None, the parent flag is irrelevant because the condition short-circuits on
nested = false, and we record it as false). -/
structure TransInfo where
  nested : Bool
  parentNested : Bool
  deriving DecidableEq

/-- State of one isolation scope: the durable database content (abstract
writes, identified by naturals), the physical connection, the outer
transaction begun by conn.begin() with its pending writes, the stack of open
nested savepoints (innermost first, each with its buffered writes), the
session binding (the connection id the scoped session is bound to; none
means the default global session), whether sess.remove() has run, the
db.session global slot (none means the default session, some sid means the
slot holds the scope session with id sid), whether the restart_savepoint
listener is registered, and the trace of actions performed so far. -/
structure ScopeState where
  durable : List Nat
  connOpen : Bool
  outerOpen : Bool
  outerWrites : List Nat
  spStack : List (List Nat)
  sessBind : Option Nat
  sessRemoved : Bool
  globalSession : Option Nat
  listener : Bool
  trace : List Action
  deriving DecidableEq

/-- sess.expire_all(): expires all session-held object state so subsequent
reads refetch from the still-open transaction.  In the embedding this is an
action on the trace only; it touches no transaction or write state. -/
def expire_all (st : ScopeState) : ScopeState :=
  { st with trace := st.trace ++ [Action.expireAll] }

/-- sess.begin_nested(): opens a new nested savepoint with an empty write
buffer on top of the savepoint stack. -/
def begin_nested (st : ScopeState) : ScopeState :=
  { st with spStack := [] :: st.spStack, trace := st.trace ++ [Action.beginNested] }

/-- The event callback registered by the fixture (conftest.py lines 127-133):
if the ended transaction is nested and its immediate parent transaction is
not nested, expire all session state and begin a new nested savepoint;
otherwise do nothing. -/
def restart_savepoint (trans : TransInfo) (st : ScopeState) : ScopeState :=
  if trans.nested && !trans.parentNested then
    begin_nested (expire_all st)
  else
    st

/-- Firing of the after_transaction_end event: runs the restart_savepoint
listener when it is registered, otherwise nothing. -/
def after_transaction_end (trans : TransInfo) (st : ScopeState) : ScopeState :=
  if st.listener then restart_savepoint trans st else st

/-- A write issued by the code under test: buffered in the innermost open
savepoint, or, when no savepoint is open, directly in the outer
transaction. -/
def do_write (n : Nat) (st : ScopeState) : ScopeState :=
  match st.spStack with
  | b :: rest => { st with spStack := (b ++ [n]) :: rest }
  | [] => { st with outerWrites := st.outerWrites ++ [n] }

/-- sess.commit() issued by the code under test.  With a nested savepoint
open, the innermost savepoint is released: its writes merge into the parent
transaction (the next savepoint, or else the outer transaction), and the
after_transaction_end event fires for the ended nested transaction.  With no
savepoint open, the commit goes through to the outer transaction, making its
pending writes durable, and the event fires for a non-nested transaction. -/
def sess_commit (st : ScopeState) : ScopeState :=
  match st.spStack with
  | b :: rest =>
      let st1 :=
        match rest with
        | b2 :: rest2 =>
            { st with spStack := (b2 ++ b) :: rest2,
                      trace := st.trace ++ [Action.releaseSavepoint] }
        | [] =>
            { st with spStack := [],
                      outerWrites := st.outerWrites ++ b,
                      trace := st.trace ++ [Action.releaseSavepoint] }
      after_transaction_end { nested := true, parentNested := !rest.isEmpty } st1
  | [] =>
      let st1 :=
        { st with durable := st.durable ++ st.outerWrites,
                  outerWrites := [],
                  outerOpen := false,
                  trace := st.trace ++ [Action.commitOuter] }
      after_transaction_end { nested := false, parentNested := false } st1

/-- sess.rollback() issued by the code under test.  With a nested savepoint
open, the innermost savepoint is rolled back (its buffered writes are
discarded) and the after_transaction_end event fires for the ended nested
transaction.  With no savepoint open, the outer transaction is rolled back,
discarding its pending writes. -/
def sess_rollback (st : ScopeState) : ScopeState :=
  match st.spStack with
  | _ :: rest =>
      let st1 :=
        { st with spStack := rest, trace := st.trace ++ [Action.rollbackSavepoint] }
      after_transaction_end { nested := true, parentNested := !rest.isEmpty } st1
  | [] =>
      let st1 :=
        { st with outerWrites := [],
                  outerOpen := false,
                  trace := st.trace ++ [Action.rollbackOuter] }
      after_transaction_end { nested := false, parentNested := false } st1

/-- Operations the code under test can issue against the bound session. -/
inductive Op
  | write (n : Nat)
  | commit
  | rollback
  deriving DecidableEq

/-- One step of the code under test. -/
def step : Op → ScopeState → ScopeState
  | Op.write n, st => do_write n st
  | Op.commit, st => sess_commit st
  | Op.rollback, st => sess_rollback st

/-- Running a sequence of operations of the code under test. -/
def run : List Op → ScopeState → ScopeState
  | [], st => st
  | o :: rest, st => run rest (step o st)

/-- State right after conn = db.engine.connect() (conftest.py line 117),
for a given db.session global slot value g0 and durable database db0. -/
def initial_state (g0 : Option Nat) (db0 : List Nat) : ScopeState :=
  { durable := db0, connOpen := true, outerOpen := false, outerWrites := [],
    spStack := [], sessBind := none, sessRemoved := false,
    globalSession := g0, listener := false, trace := [Action.connect] }

/-- txn = conn.begin() (line 118): begins the outer transaction. -/
def conn_begin (st : ScopeState) : ScopeState :=
  { st with outerOpen := true, trace := st.trace ++ [Action.beginOuter] }

/-- sess = db.create_scoped_session(options=dict(bind=conn, binds=\x7b\x7d))
(lines 120-121): binds a fresh scoped session to the connection cid.  It
begins no transaction of its own. -/
def create_scoped_session (cid : Nat) (st : ScopeState) : ScopeState :=
  { st with sessBind := some cid, trace := st.trace ++ [Action.createSession] }

/-- event.listens_for(sess(), after_transaction_end) (line 127): registers
the restart_savepoint listener. -/
def register_listener (st : ScopeState) : ScopeState :=
  { st with listener := true }

/-- db.session = sess (line 135): overrides the global session slot of the
persistence layer with the scope session sid. -/
def set_global_session (sid : Nat) (st : ScopeState) : ScopeState :=
  { st with globalSession := some sid }

/-- sess.execute(text(select 1)) (lines 137-138). -/
def exec_select1 (st : ScopeState) : ScopeState :=
  { st with trace := st.trace ++ [Action.execSelect1] }

/-- The setup half of the session fixture (conftest.py lines 116-138), on
the path where the engine produced connection cid: connect, begin the outer
transaction, create the bound scoped session sid, begin the initial nested
savepoint, register the restart_savepoint listener, override db.session,
and run the select-1 probe. -/
def setup_scope (g0 : Option Nat) (cid sid : Nat) (db0 : List Nat) : ScopeState :=
  exec_select1 (set_global_session sid (register_listener (begin_nested
    (create_scoped_session cid (conn_begin (initial_state g0 db0))))))

/-- Errors of the harness. -/
inductive HarnessError
  | connectionError
  deriving DecidableEq

/-- db.engine.connect(): produces connection id 0 when the connection source
can produce a connection, and nothing otherwise. -/
def engine_connect (connOk : Bool) : Option Nat :=
  if connOk then some 0 else none

/-- Scope acquisition: db.engine.connect() followed by the setup steps; when
the connection source cannot produce a connection, acquisition fails with a
connection error. -/
def acquire_scope (connOk : Bool) (g0 : Option Nat) (sid : Nat) (db0 : List Nat) :
    Except HarnessError ScopeState :=
  match engine_connect connOk with
  | none => Except.error HarnessError.connectionError
  | some cid => Except.ok (setup_scope g0 cid sid db0)

/-- sess.remove() (line 142). -/
def sess_remove (st : ScopeState) : ScopeState :=
  { st with sessRemoved := true, trace := st.trace ++ [Action.removeSession] }

/-- txn.rollback() (line 144): rolls back the outer transaction, discarding
its pending writes and every savepoint inside it; the durable database is
untouched. -/
def txn_rollback (st : ScopeState) : ScopeState :=
  { st with outerOpen := false, outerWrites := [], spStack := [],
            trace := st.trace ++ [Action.rollbackOuter] }

/-- conn.close() (line 145). -/
def conn_close (st : ScopeState) : ScopeState :=
  { st with connOpen := false, trace := st.trace ++ [Action.closeConn] }

/-- The teardown half of the session fixture (conftest.py lines 140-146), in
source order: sess.remove(), txn.rollback(), conn.close(). -/
def release_scope (st : ScopeState) : ScopeState :=
  conn_close (txn_rollback (sess_remove st))

/-- Outcome of the test body.  A passed or failed test runs its whole body;
a test that raises partway through runs only a prefix of it. -/
inductive TestOutcome
  | passed
  | failed
  | raised (k : Nat)
  deriving DecidableEq

/-- The operations of the body that actually execute under each outcome. -/
def body_ops (ops : List Op) : TestOutcome → List Op
  | TestOutcome.passed => ops
  | TestOutcome.failed => ops
  | TestOutcome.raised k => ops.take k

/-- A full run of the function-scoped session fixture under the pytest
yield-fixture protocol: setup, the part of the test body that executes under
the given outcome, then the teardown after the yield, which pytest runs for
every outcome (pass, fail, or raise). -/
def run_fixture (g0 : Option Nat) (cid sid : Nat) (db0 : List Nat)
    (ops : List Op) (o : TestOutcome) : ScopeState :=
  release_scope (run (body_ops ops o) (setup_scope g0 cid sid db0))

/-- The invariant the harness maintains between acquisition and release:
the outer transaction is open, exactly one nested savepoint is open, and the
restart_savepoint listener is registered. -/
def scopeInvariant (st : ScopeState) : Prop :=
  st.outerOpen = true ∧ st.spStack.length = 1 ∧ st.listener = true

/-- A sample concrete scope state, used to instantiate theorems. -/
def sampleState : ScopeState :=
  setup_scope none 0 0 []

end TestIsolation

namespace DbReset

/-- Steps of the session-scoped db fixture (conftest.py lines 68-110):
drop one foreign-key constraint of a reflected table, drop all reflected
tables, drop all model tables, drop one sequence (succeeded records whether
the DROP SEQUENCE statement succeeded; on failure the error is printed and
execution continues), commit the cleanup session, construct the Migrate
object, and run the alembic upgrade.  createAllTables is the
db.create_all() shortcut, present in the source only as a comment and never
executed. -/
inductive ResetStep
  | dropConstraint (table fk : String)
  | dropAllReflected
  | dropAllModels
  | dropSequence (name : String) (succeeded : Bool)
  | sessCommit
  | migrateInit
  | migrateUpgrade
  | createAllTables
  deriving DecidableEq

/-- A table found by metadata.reflect(), with the names of its foreign-key
constraints. -/
structure ReflectedTable where
  name : String
  fkConstraints : List String
  deriving DecidableEq

/-- The pytest scope of the db fixture decorator (conftest.py line 67):
session scope, so the reset runs once per test process. -/
def dbFixtureScope : String :=
  "session"

/-- Dropping one sequence inside the try/except of lines 90-95: when the
drop fails the exception is caught and printed and the step records a
failure; either way the routine continues. -/
def drop_sequence_step (seqFails : String → Bool) (s : String) : ResetStep :=
  if seqFails s then ResetStep.dropSequence s false else ResetStep.dropSequence s true

/-- The trace of the db reset routine (conftest.py lines 68-108), given the
reflected tables, the sequences found in information_schema, and which
sequence drops fail: drop every foreign-key constraint of every reflected
table, drop all reflected tables, drop all model tables, attempt to drop
every sequence (failures caught and logged), commit, then initialise
Migrate and run the versioned upgrade. -/
def db_reset (tables : List ReflectedTable) (seqs : List String)
    (seqFails : String → Bool) : List ResetStep :=
  (tables.flatMap fun t => t.fkConstraints.map fun fk => ResetStep.dropConstraint t.name fk)
    ++ [ResetStep.dropAllReflected, ResetStep.dropAllModels]
    ++ seqs.map (drop_sequence_step seqFails)
    ++ [ResetStep.sessCommit, ResetStep.migrateInit, ResetStep.migrateUpgrade]

/-- Phase number of a reset step, used to state that the routine performs
its phases in order. -/
def resetPhase : ResetStep → Nat
  | ResetStep.dropConstraint _ _ => 0
  | ResetStep.dropAllReflected => 1
  | ResetStep.dropAllModels => 2
  | ResetStep.dropSequence _ _ => 3
  | ResetStep.sessCommit => 4
  | ResetStep.migrateInit => 5
  | ResetStep.migrateUpgrade => 6
  | ResetStep.createAllTables => 7

end DbReset

namespace Stan

/-- Steps of the entity_stan fixture (conftest.py lines 183-206): the
underlying NATS client connect, and the streaming (bus) connect with the
cluster name and client id. -/
inductive StanStep
  | ncConnect
  | scConnect (cluster clientId : String)
  deriving DecidableEq

/-- Python truthiness test applied to the result of os.getenv: falsy when
the variable is absent (None) or set to the empty string. -/
def python_falsy : Option String → Bool
  | none => true
  | some s => s == ""

/-- The message of the ValueError raised at conftest.py line 199. -/
def missingEnvMsg : String :=
  "Missing env variable: NATS_CLUSTER_ID"

/-- The entity_stan fixture setup (conftest.py lines 190-201): connect the
NATS client, read NATS_CLUSTER_ID from the environment, raise the
descriptive ValueError when the value is falsy, and otherwise connect the
streaming bus with the cluster name.  The result is the list of connection
steps performed and the raised error, if any. -/
def entity_stan (env : String → Option String) (clientId : String) :
    List StanStep × Option String :=
  if python_falsy (env ("NATS_CLUSTER_ID")) then
    ([StanStep.ncConnect], some missingEnvMsg)
  else
    ([StanStep.ncConnect,
      StanStep.scConnect ((env ("NATS_CLUSTER_ID")).getD "") clientId], none)

end Stan

namespace Migration

/-- Column types used by the migration under scrutiny. -/
inductive ColType
  | text
  | integer
  | varchar
  deriving DecidableEq

/-- A column of a table: name, type and nullability. -/
structure Column where
  name : String
  colType : ColType
  nullable : Bool
  deriving DecidableEq

/-- A table of the schema: name and ordered list of columns. -/
structure Table where
  name : String
  cols : List Column
  deriving DecidableEq

/-- op.add_column(tbl, c): appends column c to every table named tbl. -/
def add_column (s : List Table) (tbl : String) (c : Column) : List Table :=
  s.map fun t => if t.name = tbl then { t with cols := t.cols ++ [c] } else t

/-- op.drop_column(tbl, colName): removes every column named colName from
every table named tbl. -/
def drop_column (s : List Table) (tbl colName : String) : List Table :=
  s.map fun t =>
    if t.name = tbl then { t with cols := t.cols.filter fun c => c.name != colName }
    else t

/-- The column added by revision 4ae18b9e8a76: sa.Column(address, sa.Text(),
nullable=True). -/
def addressColumn : Column :=
  { name := "address", colType := ColType.text, nullable := true }

/-- upgrade() of revision 4ae18b9e8a76 (lines 19-22): add the nullable Text
column address to the projects table. -/
def upgrade (s : List Table) : List Table :=
  add_column s "projects" addressColumn

/-- downgrade() of revision 4ae18b9e8a76 (lines 25-28): drop the address
column from the projects table. -/
def downgrade (s : List Table) : List Table :=
  drop_column s "projects" "address"

end Migration

namespace TestIsolation

theorem setup_scope_eq (g0 : Option Nat) (cid sid : Nat) (db0 : List Nat) :
    setup_scope g0 cid sid db0 =
      { durable := db0, connOpen := true, outerOpen := true, outerWrites := [],
        spStack := [[]], sessBind := some cid, sessRemoved := false,
        globalSession := some sid, listener := true,
        trace := [Action.connect, Action.beginOuter, Action.createSession,
          Action.beginNested, Action.execSelect1] } := by
  rfl

theorem release_scope_eq (st : ScopeState) :
    release_scope st =
      { st with sessRemoved := true, outerOpen := false, outerWrites := [],
                spStack := [], connOpen := false,
                trace := st.trace ++
                  [Action.removeSession, Action.rollbackOuter, Action.closeConn] } := by
  simp [release_scope, sess_remove, txn_rollback, conn_close]

theorem step_effects (o : Op) (st : ScopeState) (h : scopeInvariant st) :
    scopeInvariant (step o st) ∧
    (step o st).durable = st.durable ∧
    (step o st).trace.count Action.beginOuter = st.trace.count Action.beginOuter ∧
    (step o st).globalSession = st.globalSession ∧
    (step o st).connOpen = st.connOpen ∧
    (step o st).sessRemoved = st.sessRemoved := by
  obtain ⟨ho, hl, hlis⟩ := h
  cases hst : st.spStack with
  | nil => simp [hst] at hl
  | cons b rest =>
    cases rest with
    | cons b2 rest2 => simp [hst] at hl
    | nil =>
      cases o with
      | write n =>
        simp [step, do_write, hst, scopeInvariant, ho, hlis]
      | commit =>
        simp [step, sess_commit, hst, after_transaction_end, hlis,
          restart_savepoint, begin_nested, expire_all, scopeInvariant, ho,
          List.count_append]
      | rollback =>
        simp [step, sess_rollback, hst, after_transaction_end, hlis,
          restart_savepoint, begin_nested, expire_all, scopeInvariant, ho,
          List.count_append]

theorem run_effects (ops : List Op) (st : ScopeState) (h : scopeInvariant st) :
    scopeInvariant (run ops st) ∧
    (run ops st).durable = st.durable ∧
    (run ops st).trace.count Action.beginOuter = st.trace.count Action.beginOuter ∧
    (run ops st).globalSession = st.globalSession ∧
    (run ops st).connOpen = st.connOpen ∧
    (run ops st).sessRemoved = st.sessRemoved := by
  induction ops generalizing st with
  | nil => exact ⟨h, rfl, rfl, rfl, rfl, rfl⟩
  | cons o rest ih =>
    obtain ⟨h1, h2, h3, h4, h5, h6⟩ := step_effects o st h
    obtain ⟨g1, g2, g3, g4, g5, g6⟩ := ih (step o st) h1
    exact ⟨g1, g2.trans h2, g3.trans h3, g4.trans h4, g5.trans h5, g6.trans h6⟩

theorem setup_scope_invariant (g0 : Option Nat) (cid sid : Nat) (db0 : List Nat) :
    scopeInvariant (setup_scope g0 cid sid db0) := by
  rw [setup_scope_eq]
  exact ⟨rfl, rfl, rfl⟩

/-- C1: for every sequence of operations (in particular any number of
internal commits) performed by the code under test inside an open isolation
scope, after the scope is released the durable database is exactly what it
was before the scope was acquired, so none of the writes absorbed by the
nested savepoints remains durable. -/
theorem nested_commit_absorption (g0 : Option Nat) (cid sid : Nat)
    (db0 : List Nat) (ops : List Op) (o : TestOutcome) (w : Nat)
    (hw : w ∉ db0) :
    (run_fixture g0 cid sid db0 ops o).durable = db0 ∧
    w ∉ (run_fixture g0 cid sid db0 ops o).durable := by
  have h := run_effects (body_ops ops o) _ (setup_scope_invariant g0 cid sid db0)
  have hd : (run_fixture g0 cid sid db0 ops o).durable = db0 := by
    simp only [run_fixture, release_scope_eq]
    rw [h.2.1, setup_scope_eq]
  refine ⟨hd, ?_⟩
  rw [hd]
  exact hw

theorem nested_commit_absorption_witness :
    (7 : Nat) ∉ ([1] : List Nat) ∧
    ((run_fixture none 0 0 [1] [Op.write 7, Op.commit] TestOutcome.passed).durable = [1] ∧
      7 ∉ (run_fixture none 0 0 [1] [Op.write 7, Op.commit] TestOutcome.passed).durable) :=
  ⟨by decide,
    nested_commit_absorption none 0 0 [1] [Op.write 7, Op.commit]
      TestOutcome.passed 7 (by decide)⟩

/-- C2: the commit-boundary callback recreates a savepoint if and only if
the ended transaction is nested and its immediate parent transaction is not
nested; in that case it first expires all session-held state and then opens
a new nested savepoint (the trace gains expireAll then beginNested, and the
savepoint stack gains one entry), and in every other case it leaves the
state unchanged. -/
theorem commit_boundary_policy (trans : TransInfo) (st : ScopeState) :
    ((restart_savepoint trans st).spStack.length = st.spStack.length + 1 ↔
      (trans.nested = true ∧ trans.parentNested = false)) ∧
    (trans.nested = true → trans.parentNested = false →
      restart_savepoint trans st = begin_nested (expire_all st) ∧
      (restart_savepoint trans st).trace =
        st.trace ++ [Action.expireAll, Action.beginNested] ∧
      (restart_savepoint trans st).spStack = [] :: st.spStack) ∧
    (¬(trans.nested = true ∧ trans.parentNested = false) →
      restart_savepoint trans st = st) := by
  obtain ⟨n, p⟩ := trans
  cases n <;> cases p <;>
    simp [restart_savepoint, begin_nested, expire_all]

theorem commit_boundary_policy_witness :
    restart_savepoint { nested := true, parentNested := false } sampleState =
      begin_nested (expire_all sampleState) ∧
    restart_savepoint { nested := true, parentNested := true } sampleState =
      sampleState :=
  ⟨((commit_boundary_policy { nested := true, parentNested := false } sampleState).2.1
      rfl rfl).1,
    (commit_boundary_policy { nested := true, parentNested := true } sampleState).2.2
      (by simp)⟩

/-- C3: at every point between scope acquisition and scope release, in
particular after every operation of the code under test and hence after
every commit boundary, the outer transaction is open (and the trace holds
exactly one beginOuter), and exactly one nested savepoint is open. -/
theorem always_one_savepoint (g0 : Option Nat) (cid sid : Nat)
    (db0 : List Nat) (ops : List Op) :
    (run ops (setup_scope g0 cid sid db0)).outerOpen = true ∧
    (run ops (setup_scope g0 cid sid db0)).spStack.length = 1 ∧
    (run ops (setup_scope g0 cid sid db0)).trace.count Action.beginOuter = 1 := by
  have h := run_effects ops _ (setup_scope_invariant g0 cid sid db0)
  refine ⟨h.1.1, h.1.2.1, ?_⟩
  rw [h.2.2.1, setup_scope_eq]
  rfl

theorem always_one_savepoint_witness :
    (run [Op.write 3, Op.commit] (setup_scope none 0 0 [])).outerOpen = true ∧
    (run [Op.write 3, Op.commit] (setup_scope none 0 0 [])).spStack.length = 1 ∧
    (run [Op.write 3, Op.commit]
      (setup_scope none 0 0 [])).trace.count Action.beginOuter = 1 :=
  always_one_savepoint none 0 0 [] [Op.write 3, Op.commit]

/-- C4: for every test outcome (pass, fail, or raise partway through), the
fixture teardown runs and appends exactly the steps removeSession,
rollbackOuter, closeConn in this order to the trace; afterwards the session
is removed, the outer transaction is closed with all its pending work and
savepoints discarded, and the connection is closed. -/
theorem release_always_runs (g0 : Option Nat) (cid sid : Nat)
    (db0 : List Nat) (ops : List Op) (o : TestOutcome) :
    (run_fixture g0 cid sid db0 ops o).trace =
      (run (body_ops ops o) (setup_scope g0 cid sid db0)).trace ++
        [Action.removeSession, Action.rollbackOuter, Action.closeConn] ∧
    (run_fixture g0 cid sid db0 ops o).sessRemoved = true ∧
    (run_fixture g0 cid sid db0 ops o).outerOpen = false ∧
    (run_fixture g0 cid sid db0 ops o).connOpen = false ∧
    (run_fixture g0 cid sid db0 ops o).spStack = [] ∧
    (run_fixture g0 cid sid db0 ops o).outerWrites = [] := by
  simp [run_fixture, release_scope_eq]

theorem release_always_runs_witness :
    (run_fixture none 0 0 [2] [Op.write 3] (TestOutcome.raised 0)).trace =
      (run (body_ops [Op.write 3] (TestOutcome.raised 0))
        (setup_scope none 0 0 [2])).trace ++
        [Action.removeSession, Action.rollbackOuter, Action.closeConn] ∧
    (run_fixture none 0 0 [2] [Op.write 3] (TestOutcome.raised 0)).sessRemoved = true ∧
    (run_fixture none 0 0 [2] [Op.write 3] (TestOutcome.raised 0)).outerOpen = false ∧
    (run_fixture none 0 0 [2] [Op.write 3] (TestOutcome.raised 0)).connOpen = false ∧
    (run_fixture none 0 0 [2] [Op.write 3] (TestOutcome.raised 0)).spStack = [] ∧
    (run_fixture none 0 0 [2] [Op.write 3] (TestOutcome.raised 0)).outerWrites = [] :=
  release_always_runs none 0 0 [2] [Op.write 3] (TestOutcome.raised 0)

/-- C5: scope acquisition fails with a connection error exactly when the
engine cannot produce a connection; on success it performs exactly one
connect, exactly one outer-transaction begin and exactly one begin-nested,
leaves the outer transaction and the connection open with exactly one
savepoint, and binds the session to the produced connection (id 0) rather
than to the default session (sessBind is not none). -/
theorem acquire_scope_contract (g0 : Option Nat) (sid : Nat) (db0 : List Nat) :
    acquire_scope false g0 sid db0 = Except.error HarnessError.connectionError ∧
    acquire_scope true g0 sid db0 = Except.ok (setup_scope g0 0 sid db0) ∧
    (setup_scope g0 0 sid db0).trace.count Action.connect = 1 ∧
    (setup_scope g0 0 sid db0).trace.count Action.beginOuter = 1 ∧
    (setup_scope g0 0 sid db0).trace.count Action.beginNested = 1 ∧
    (setup_scope g0 0 sid db0).outerOpen = true ∧
    (setup_scope g0 0 sid db0).spStack.length = 1 ∧
    (setup_scope g0 0 sid db0).connOpen = true ∧
    (setup_scope g0 0 sid db0).sessBind = some 0 ∧
    (setup_scope g0 0 sid db0).sessBind ≠ none := by
  refine ⟨rfl, rfl, ?_, ?_, ?_, rfl, rfl, rfl, rfl, ?_⟩
  · rw [setup_scope_eq]
    rfl
  · rw [setup_scope_eq]
    rfl
  · rw [setup_scope_eq]
    rfl
  · rw [setup_scope_eq]
    simp

theorem acquire_scope_contract_witness :
    acquire_scope false none 0 [] = Except.error HarnessError.connectionError ∧
    acquire_scope true none 0 [] = Except.ok (setup_scope none 0 0 []) ∧
    (setup_scope none 0 0 []).trace.count Action.connect = 1 ∧
    (setup_scope none 0 0 []).trace.count Action.beginOuter = 1 ∧
    (setup_scope none 0 0 []).trace.count Action.beginNested = 1 ∧
    (setup_scope none 0 0 []).outerOpen = true ∧
    (setup_scope none 0 0 []).spStack.length = 1 ∧
    (setup_scope none 0 0 []).connOpen = true ∧
    (setup_scope none 0 0 []).sessBind = some 0 ∧
    (setup_scope none 0 0 []).sessBind ≠ none :=
  acquire_scope_contract none 0 []

/-- C9 as stated is false on the code: the teardown never restores or clears
the db.session global slot, so it is not the case that after every fixture
run the slot equals its pre-override value or is discarded; concretely, with
the slot initially at the default (none) and scope session id 5, the slot
still holds session 5 after release. -/
theorem global_session_not_restored :
    ¬ (∀ (g0 : Option Nat) (cid sid : Nat) (db0 : List Nat) (ops : List Op)
        (o : TestOutcome),
        (run_fixture g0 cid sid db0 ops o).globalSession = g0 ∨
        (run_fixture g0 cid sid db0 ops o).globalSession = none) := by
  intro h
  have h2 := h none 0 5 [] [] TestOutcome.passed
  revert h2
  decide

/-- C9 amended: the harness overrides the global session slot with the
scope session for the duration of the test, and at release it removes the
session but leaves the slot holding that removed session; the stale binding
persists until the next scope acquisition overwrites the slot with the new
scope session. -/
theorem global_session_override_persists (g0 : Option Nat)
    (cid sid cid2 sid2 : Nat) (db0 db2 : List Nat) (ops : List Op)
    (o : TestOutcome) :
    (run_fixture g0 cid sid db0 ops o).globalSession = some sid ∧
    (run_fixture g0 cid sid db0 ops o).sessRemoved = true ∧
    (setup_scope (run_fixture g0 cid sid db0 ops o).globalSession
      cid2 sid2 db2).globalSession = some sid2 := by
  have h := run_effects (body_ops ops o) _ (setup_scope_invariant g0 cid sid db0)
  refine ⟨?_, ?_, by rw [setup_scope_eq]⟩
  · simp only [run_fixture, release_scope_eq]
    rw [h.2.2.2.1, setup_scope_eq]
  · simp only [run_fixture, release_scope_eq]

theorem global_session_override_persists_witness :
    (run_fixture none 0 5 [] [] TestOutcome.passed).globalSession = some 5 ∧
    (run_fixture none 0 5 [] [] TestOutcome.passed).sessRemoved = true ∧
    (setup_scope (run_fixture none 0 5 [] [] TestOutcome.passed).globalSession
      1 6 []).globalSession = some 6 :=
  global_session_override_persists none 0 5 1 6 [] [] [] TestOutcome.passed

end TestIsolation

namespace DbReset

theorem resetPhase_fk (tables : List ReflectedTable) (x : ResetStep)
    (hx : x ∈ tables.flatMap fun t =>
      t.fkConstraints.map fun fk => ResetStep.dropConstraint t.name fk) :
    resetPhase x = 0 := by
  simp only [List.mem_flatMap, List.mem_map] at hx
  obtain ⟨t, -, fk, -, rfl⟩ := hx
  rfl

theorem resetPhase_seq (seqFails : String → Bool) (s : String) :
    resetPhase (drop_sequence_step seqFails s) = 3 := by
  unfold drop_sequence_step
  split <;> rfl

/-- C6: the db fixture is session-scoped (once per test process), and its
reset trace performs its phases in order for every database content: all
foreign-key constraint drops come first, then the table drops, then the
sequence drops, then the commit and the Migrate/upgrade invocation; the
trace ends with the versioned migrate upgrade, never contains the
create-all-tables shortcut, and contains a drop for every foreign-key
constraint of every reflected table, both table-drop steps, an attempt for
every sequence, and the migrate upgrade. -/
theorem db_reset_order (tables : List ReflectedTable) (seqs : List String)
    (seqFails : String → Bool) :
    dbFixtureScope = "session" ∧
    List.Pairwise (fun a b => resetPhase a ≤ resetPhase b)
      (db_reset tables seqs seqFails) ∧
    (∃ pre, db_reset tables seqs seqFails = pre ++ [ResetStep.migrateUpgrade]) ∧
    ResetStep.createAllTables ∉ db_reset tables seqs seqFails ∧
    (∀ t ∈ tables, ∀ fk ∈ t.fkConstraints,
      ResetStep.dropConstraint t.name fk ∈ db_reset tables seqs seqFails) ∧
    ResetStep.dropAllReflected ∈ db_reset tables seqs seqFails ∧
    ResetStep.dropAllModels ∈ db_reset tables seqs seqFails ∧
    (∀ s ∈ seqs, drop_sequence_step seqFails s ∈ db_reset tables seqs seqFails) ∧
    ResetStep.migrateUpgrade ∈ db_reset tables seqs seqFails := by
  have h1 := resetPhase_fk tables
  have h3 : ∀ x ∈ seqs.map (drop_sequence_step seqFails), resetPhase x = 3 := by
    intro x hx
    simp only [List.mem_map] at hx
    obtain ⟨s, -, rfl⟩ := hx
    exact resetPhase_seq seqFails s
  have h2b : ∀ x ∈ [ResetStep.dropAllReflected, ResetStep.dropAllModels],
      resetPhase x ≤ 2 := by decide
  have h4b : ∀ x ∈ [ResetStep.sessCommit, ResetStep.migrateInit,
      ResetStep.migrateUpgrade], 3 ≤ resetPhase x := by decide
  refine ⟨rfl, ?_, ?_, ?_, ?_, ?_, ?_, ?_, ?_⟩
  · unfold db_reset
    rw [List.append_assoc, List.append_assoc]
    refine List.pairwise_append.mpr ⟨?_, ?_, ?_⟩
    · exact List.pairwise_of_forall_mem_list fun a ha b hb => by
        rw [h1 a ha, h1 b hb]
    · refine List.pairwise_append.mpr ⟨?_, ?_, ?_⟩
      · decide
      · refine List.pairwise_append.mpr ⟨?_, ?_, ?_⟩
        · exact List.pairwise_of_forall_mem_list fun a ha b hb => by
            rw [h3 a ha, h3 b hb]
        · decide
        · intro a ha b hb
          rw [h3 a ha]
          exact h4b b hb
      · intro a ha b hb
        have hle := h2b a ha
        have hge : 3 ≤ resetPhase b := by
          rcases List.mem_append.mp hb with h | h
          · rw [h3 b h]
          · exact h4b b h
        omega
    · intro a ha b hb
      rw [h1 a ha]
      exact Nat.zero_le _
  · exact ⟨(tables.flatMap fun t =>
        t.fkConstraints.map fun fk => ResetStep.dropConstraint t.name fk)
        ++ [ResetStep.dropAllReflected, ResetStep.dropAllModels]
        ++ seqs.map (drop_sequence_step seqFails)
        ++ [ResetStep.sessCommit, ResetStep.migrateInit],
      by simp [db_reset, List.append_assoc]⟩
  · intro hmem
    unfold db_reset at hmem
    rcases List.mem_append.mp hmem with hm | hm
    · rcases List.mem_append.mp hm with hm2 | hm2
      · rcases List.mem_append.mp hm2 with hm3 | hm3
        · have := h1 _ hm3
          simp [resetPhase] at this
        · simp at hm3
      · have := h3 _ hm2
        simp [resetPhase] at this
    · simp at hm
  · intro t ht fk hfk
    unfold db_reset
    refine List.mem_append.mpr (Or.inl (List.mem_append.mpr (Or.inl
      (List.mem_append.mpr (Or.inl ?_)))))
    exact List.mem_flatMap_of_mem ht (List.mem_map_of_mem _ hfk)
  · simp [db_reset]
  · simp [db_reset]
  · intro s hs
    unfold db_reset
    refine List.mem_append.mpr (Or.inl (List.mem_append.mpr (Or.inr ?_)))
    exact List.mem_map_of_mem _ hs
  · simp [db_reset]

/-- A sample reflected-table list used to instantiate theorems. -/
def demoTables : List ReflectedTable :=
  [{ name := "projects", fkConstraints := ["projects_fk"] }]

/-- A sample sequence-name list used to instantiate theorems. -/
def demoSeqs : List String :=
  ["seq_a", "seq_b"]

/-- A sample failure pattern for sequence drops: dropping seq_a fails. -/
def demoFails : String → Bool :=
  fun s => s == "seq_a"

theorem db_reset_order_witness :
    List.Pairwise (fun a b => resetPhase a ≤ resetPhase b)
      (db_reset demoTables demoSeqs demoFails) ∧
    ResetStep.dropConstraint "projects" "projects_fk" ∈
      db_reset demoTables demoSeqs demoFails ∧
    ResetStep.createAllTables ∉ db_reset demoTables demoSeqs demoFails :=
  ⟨(db_reset_order demoTables demoSeqs demoFails).2.1,
    (db_reset_order demoTables demoSeqs demoFails).2.2.2.2.1
      { name := "projects", fkConstraints := ["projects_fk"] } (by decide)
      "projects_fk" (by decide),
    (db_reset_order demoTables demoSeqs demoFails).2.2.2.1⟩

/-- C7: a failure while dropping an individual sequence is caught and
recorded (the step appears with succeeded = false) and the routine
continues: every sequence in the list is attempted regardless of which
drops fail, and the trace still ends with the migrate upgrade, so no
sequence-drop error is ever fatal to the reset. -/
theorem sequence_drop_best_effort (tables : List ReflectedTable)
    (seqs : List String) (seqFails : String → Bool) (s : String)
    (hs : s ∈ seqs) :
    drop_sequence_step seqFails s ∈ db_reset tables seqs seqFails ∧
    (seqFails s = true →
      ResetStep.dropSequence s false ∈ db_reset tables seqs seqFails) ∧
    (∀ s2 ∈ seqs, drop_sequence_step seqFails s2 ∈ db_reset tables seqs seqFails) ∧
    (∃ pre, db_reset tables seqs seqFails = pre ++ [ResetStep.migrateUpgrade]) := by
  have hmem : ∀ s2 ∈ seqs,
      drop_sequence_step seqFails s2 ∈ db_reset tables seqs seqFails := by
    intro s2 hs2
    unfold db_reset
    refine List.mem_append.mpr (Or.inl (List.mem_append.mpr (Or.inr ?_)))
    exact List.mem_map_of_mem _ hs2
  refine ⟨hmem s hs, ?_, hmem, ?_⟩
  · intro hf
    have := hmem s hs
    rwa [drop_sequence_step, hf, if_pos rfl] at this
  · exact ⟨(tables.flatMap fun t =>
        t.fkConstraints.map fun fk => ResetStep.dropConstraint t.name fk)
        ++ [ResetStep.dropAllReflected, ResetStep.dropAllModels]
        ++ seqs.map (drop_sequence_step seqFails)
        ++ [ResetStep.sessCommit, ResetStep.migrateInit],
      by simp [db_reset, List.append_assoc]⟩

theorem sequence_drop_best_effort_witness :
    ("seq_a" ∈ demoSeqs) ∧
    ResetStep.dropSequence "seq_a" false ∈ db_reset demoTables demoSeqs demoFails ∧
    drop_sequence_step demoFails "seq_b" ∈ db_reset demoTables demoSeqs demoFails :=
  ⟨by decide,
    (sequence_drop_best_effort demoTables demoSeqs demoFails "seq_a"
      (by decide)).2.1 (by decide),
    (sequence_drop_best_effort demoTables demoSeqs demoFails "seq_a"
      (by decide)).2.2.1 "seq_b" (by decide)⟩

end DbReset

namespace Stan

/-- A concrete environment where NATS_CLUSTER_ID is present but set to the
empty string. -/
def emptyClusterEnv : String → Option String :=
  fun k => if k = "NATS_CLUSTER_ID" then some "" else none

/-- A concrete environment with no variables set. -/
def noEnv : String → Option String :=
  fun _ => none

/-- A concrete environment where NATS_CLUSTER_ID is set to cluster-1. -/
def withClusterEnv : String → Option String :=
  fun k => if k = "NATS_CLUSTER_ID" then some "cluster-1" else none

/-- C8 as stated is false on the code: raising is not equivalent to the
variable being absent, because the fixture also raises when NATS_CLUSTER_ID
is present but set to the empty string (the Python truthiness check);
concretely, under an environment that maps NATS_CLUSTER_ID to the empty
string the fixture raises although the variable is present. -/
theorem entity_stan_error_not_iff_absent :
    ¬ (∀ (env : String → Option String) (clientId : String),
        (entity_stan env clientId).2.isSome = true ↔
          env ("NATS_CLUSTER_ID") = none) := by
  intro h
  have h2 := (h emptyClusterEnv ("tester")).mp (by rfl)
  simp [emptyClusterEnv] at h2

/-- C8 amended: the entity_stan fixture raises the descriptive ValueError
if and only if NATS_CLUSTER_ID is absent or set to the empty string (Python
falsiness); when it raises, the error carries the descriptive message and
the streaming bus connection is never attempted; when it does not raise,
the fixture performs the NATS connect and then the bus connect with the
configured cluster name. -/
theorem entity_stan_env_check (env : String → Option String) (clientId : String) :
    ((entity_stan env clientId).2.isSome = true ↔
      (env ("NATS_CLUSTER_ID") = none ∨ env ("NATS_CLUSTER_ID") = some "")) ∧
    ((entity_stan env clientId).2.isSome = true →
      (entity_stan env clientId).2 = some missingEnvMsg ∧
      ∀ c cl, StanStep.scConnect c cl ∉ (entity_stan env clientId).1) ∧
    ((entity_stan env clientId).2 = none →
      (entity_stan env clientId).1 =
        [StanStep.ncConnect,
          StanStep.scConnect ((env ("NATS_CLUSTER_ID")).getD "") clientId]) := by
  cases hc : env ("NATS_CLUSTER_ID") with
  | none => simp [entity_stan, hc, python_falsy]
  | some s =>
    by_cases hs : s = ""
    · subst hs
      simp [entity_stan, hc, python_falsy]
    · simp [entity_stan, hc, python_falsy, hs]

theorem entity_stan_env_check_witness :
    (entity_stan noEnv ("tester")).2 = some missingEnvMsg ∧
    StanStep.scConnect ("c1") ("tester") ∉ (entity_stan noEnv ("tester")).1 ∧
    (entity_stan withClusterEnv ("tester")).1 =
      [StanStep.ncConnect, StanStep.scConnect ("cluster-1") ("tester")] := by
  refine ⟨((entity_stan_env_check noEnv ("tester")).2.1 (by rfl)).1,
    ((entity_stan_env_check noEnv ("tester")).2.1 (by rfl)).2 ("c1") ("tester"), ?_⟩
  have h3 := (entity_stan_env_check withClusterEnv ("tester")).2.2 (by rfl)
  simpa [withClusterEnv] using h3

end Stan

namespace Migration

theorem roundtrip_aux (s : List Table)
    (h : ∀ t ∈ s, t.name = "projects" → ∀ c ∈ t.cols, c.name ≠ "address") :
    downgrade (upgrade s) = s := by
  induction s with
  | nil => rfl
  | cons t rest ih =>
    have hrest : ∀ t2 ∈ rest, t2.name = "projects" →
        ∀ c ∈ t2.cols, c.name ≠ "address" :=
      fun t2 h2 => h t2 (by simp [h2])
    have htail : downgrade (upgrade rest) = rest := ih hrest
    unfold downgrade upgrade drop_column add_column at htail ⊢
    simp only [List.map_cons]
    congr 1
    · obtain ⟨tn, tc⟩ := t
      by_cases hp : tn = "projects"
      · subst hp
        have hcols : List.filter (fun c => c.name != "address") tc = tc :=
          List.filter_eq_self.mpr fun c hc => by
            simpa using h { name := "projects", cols := tc } (by simp) rfl c hc
        simp [List.filter_append, hcols, addressColumn]
      · simp [hp]

/-- C10: for any schema whose projects tables have no address column,
upgrade appends exactly the single nullable Text column named address to
every projects table and leaves every other table unchanged (the schema
keeps its length), and applying downgrade afterwards removes exactly that
column, restoring the original schema (round-trip identity). -/
theorem upgrade_downgrade_roundtrip (s : List Table)
    (h : ∀ t ∈ s, t.name = "projects" → ∀ c ∈ t.cols, c.name ≠ "address") :
    downgrade (upgrade s) = s ∧
    (upgrade s).length = s.length ∧
    (∀ t ∈ s, t.name = "projects" →
      { t with cols := t.cols ++ [addressColumn] } ∈ upgrade s) ∧
    (∀ t ∈ s, t.name ≠ "projects" → t ∈ upgrade s) ∧
    addressColumn =
      { name := "address", colType := ColType.text, nullable := true } := by
  refine ⟨roundtrip_aux s h, by simp [upgrade, add_column], ?_, ?_, rfl⟩
  · intro t ht hp
    have hm := List.mem_map_of_mem
      (fun t : Table =>
        if t.name = "projects" then { t with cols := t.cols ++ [addressColumn] }
        else t) ht
    simpa [upgrade, add_column, hp] using hm
  · intro t ht hp
    have hm := List.mem_map_of_mem
      (fun t : Table =>
        if t.name = "projects" then { t with cols := t.cols ++ [addressColumn] }
        else t) ht
    simpa [upgrade, add_column, hp] using hm

/-- A sample schema with a projects table lacking an address column. -/
def demoSchema : List Table :=
  [{ name := "projects",
     cols := [{ name := "description", colType := ColType.varchar, nullable := false }] },
   { name := "staffs", cols := [] }]

theorem upgrade_downgrade_roundtrip_witness :
    (∀ t ∈ demoSchema, t.name = "projects" → ∀ c ∈ t.cols, c.name ≠ "address") ∧
    downgrade (upgrade demoSchema) = demoSchema :=
  ⟨by decide, (upgrade_downgrade_roundtrip demoSchema (by decide)).1⟩

end Migration
